import Mathlib

/-!
Shallow embedding of the Reddit topic-modeling pipeline
(src/load_data_to_db.py and src/embed_dataset.py), with theorems settling
the specification claims about the record filter, the ingestion worker,
the relational sink, the coordinator, and the embedding pipeline.
-/

namespace RedditPipeline

/-! ## Record model

A raw Reddit submission as parsed from one JSON line.  Each persisted
attribute is an `Option`: `none` models the key being absent from the JSON
object (for `media`, absent or JSON `null`, since the Python code only
tests `line_json.get("media", None) is not None`).  Attribute value types
follow the table schema; `upvote_ratio` (REAL) is modeled as `Rat`.
-/
structure RawRecord where
  subreddit : Option String
  score : Option Int
  author : Option String
  created_utc : Option Int
  title : Option String
  id : Option String
  num_comments : Option Int
  upvote_ratio : Option Rat
  selftext : Option String
  media : Option String
  deriving Repr, DecidableEq

/-- The dictionary built by `filter_submissions_by_content_length`: the nine
desired attributes, each present iff it was present in the raw record,
except `selftext`, which the code always (re)assigns at the end. -/
structure FilteredPost where
  subreddit : Option String
  score : Option Int
  author : Option String
  created_utc : Option Int
  title : Option String
  id : Option String
  num_comments : Option Int
  upvote_ratio : Option Rat
  selftext : Option String
  deriving Repr, DecidableEq

/-- The `selftext` the filter actually uses: the empty string when the
record carries media metadata (`line_json.get("media", None) is not None`),
otherwise the raw selftext (defaulted to `""` when absent, as
`line_json.get("selftext", "")` does). -/
def effective_selftext (r : RawRecord) : String :=
  if r.media.isSome then "" else r.selftext.getD ""

/-- Embedding of `filter_submissions_by_content_length` from
src/load_data_to_db.py.  Returns `none` when the record is discarded and
`some post` when it is kept, where `post` copies each desired attribute
that is present in the raw record and then overwrites `selftext` with the
effective selftext. -/
def filter_submissions_by_content_length
    (line_json : RawRecord) (min_num_characters : Nat) (min_score : Int) :
    Option FilteredPost :=
  let selftext := effective_selftext line_json
  let combined_text := line_json.title.getD "" ++ selftext
  if combined_text.length ≤ min_num_characters then
    none
  else
    let score := line_json.score.getD 0
    if -min_score < score ∧ score < min_score then
      none
    else
      some {
        subreddit := line_json.subreddit
        score := line_json.score
        author := line_json.author
        created_utc := line_json.created_utc
        title := line_json.title
        id := line_json.id
        num_comments := line_json.num_comments
        upvote_ratio := line_json.upvote_ratio
        selftext := some selftext
      }

end RedditPipeline

namespace RedditPipeline

/-- C1, keep-condition part is stated over this record. -/
def c1Record : RawRecord :=
  { subreddit := some "AskReddit"
    score := some 10
    author := some "alice"
    created_utc := some 1500000000
    title := some "a title that is comfortably long"
    id := some "abc123"
    num_comments := some 3
    upvote_ratio := some (9 / 10 : Rat)
    selftext := some "body"
    media := none }

end RedditPipeline

namespace RedditPipeline

/-- **C1.** The record filter keeps a raw record iff the combined length of
title and effective selftext strictly exceeds `min_num_characters` and the
(defaulted) score satisfies `score ≤ -min_score ∨ min_score ≤ score`; when
the record is kept, the returned post's `selftext` is the effective
selftext (empty when media metadata is present, the raw selftext
otherwise).  The filter is a pure function of the record and the two
thresholds. -/
theorem c1_filter_keep_iff (r : RawRecord) (mc : Nat) (ms : Int) :
    ((filter_submissions_by_content_length r mc ms).isSome = true ↔
      (mc < (r.title.getD "" ++ effective_selftext r).length ∧
        (r.score.getD 0 ≤ -ms ∨ ms ≤ r.score.getD 0))) ∧
    (∀ fp, filter_submissions_by_content_length r mc ms = some fp →
      fp.selftext = some (effective_selftext r)) := by
  constructor
  · simp only [filter_submissions_by_content_length]
    split
    · simp only [Option.isSome_none, Bool.false_eq_true, false_iff]
      intro hc
      omega
    · split
      · simp only [Option.isSome_none, Bool.false_eq_true, false_iff]
        intro hc
        omega
      · simp only [Option.isSome_some, true_iff]
        omega
  · intro fp h
    simp only [filter_submissions_by_content_length] at h
    split at h
    · cases h
    · split at h
      · cases h
      · cases h
        rfl

/-- Witness for C1 at a concrete record: the record is kept, and the
returned selftext is the raw selftext (no media present). -/
theorem c1_filter_keep_iff_witness :
    (filter_submissions_by_content_length c1Record 20 10).isSome = true ∧
    (∀ fp, filter_submissions_by_content_length c1Record 20 10 = some fp →
      fp.selftext = some "body") := by
  refine ⟨(c1_filter_keep_iff c1Record 20 10).1.mpr ⟨by decide, Or.inr (by decide)⟩, ?_⟩
  intro fp h
  have := (c1_filter_keep_iff c1Record 20 10).2 fp h
  simpa [effective_selftext, c1Record] using this

end RedditPipeline

namespace RedditPipeline

/-! ## Relational sink: `insert_into_db`

The committed state of the destination table is modeled as the list of
persisted rows (a row is identified with the `FilteredPost` it came from;
the code turns each accepted dictionary into the tuple of its values, a
bijective step when the key check passes).  `flush_ok = false` models the
sink raising during `executemany`/`commit`, after which the code calls
`conn.rollback()` and returns, leaving the committed state unchanged.
-/

/-- The key set of the dictionary `filter_submissions_by_content_length`
returns: exactly the attributes that are present. -/
def FilteredPost.keys (p : FilteredPost) : Finset String :=
  (if p.subreddit.isSome then {"subreddit"} else ∅) ∪
  (if p.score.isSome then {"score"} else ∅) ∪
  (if p.author.isSome then {"author"} else ∅) ∪
  (if p.created_utc.isSome then {"created_utc"} else ∅) ∪
  (if p.title.isSome then {"title"} else ∅) ∪
  (if p.id.isSome then {"id"} else ∅) ∪
  (if p.num_comments.isSome then {"num_comments"} else ∅) ∪
  (if p.upvote_ratio.isSome then {"upvote_ratio"} else ∅) ∪
  (if p.selftext.isSome then {"selftext"} else ∅)

/-- The fixed key set `insert_into_db` compares against; it omits
`upvote_ratio`. -/
def expected_keys : Finset String :=
  {"subreddit", "score", "author", "created_utc", "title", "id",
   "num_comments", "selftext"}

/-- The rows `insert_into_db` actually passes to `executemany`: those whose
key set equals `expected_keys` (`if set(data.keys()) == expected_keys`). -/
def values_to_insert (data_batch : List FilteredPost) : List FilteredPost :=
  data_batch.filter (fun d => decide (FilteredPost.keys d = expected_keys))

/-- Embedding of `insert_into_db`: on an empty batch return immediately;
otherwise commit the selected rows, or roll back (state unchanged) when
the flush fails. -/
def insert_into_db (flush_ok : Bool) (conn : List FilteredPost)
    (data_batch : List FilteredPost) : List FilteredPost :=
  if data_batch.isEmpty then conn
  else if flush_ok then conn ++ values_to_insert data_batch
  else conn

/-- A worker's sequence of flushes: each batch comes with the verdict of
its own sink transaction, and a failed flush does not stop later ones. -/
def run_batches (conn : List FilteredPost)
    (batches : List (Bool × List FilteredPost)) : List FilteredPost :=
  batches.foldl (fun db b => insert_into_db b.1 db b.2) conn

lemma insert_into_db_rollback (conn data_batch) :
    insert_into_db false conn data_batch = conn := by
  simp only [insert_into_db, Bool.false_eq_true, if_false]
  split <;> rfl

lemma insert_into_db_commit (conn data_batch) :
    insert_into_db true conn data_batch = conn ++ values_to_insert data_batch := by
  simp only [insert_into_db, if_true]
  split
  · next h =>
    rw [List.isEmpty_iff.mp h]
    simp [values_to_insert]
  · rfl

lemma run_batches_eq (conn batches) :
    run_batches conn batches =
      conn ++ ((batches.filter (fun b => b.1)).map
        (fun b => values_to_insert b.2)).flatten := by
  induction batches generalizing conn with
  | nil => simp [run_batches]
  | cons b rest ih =>
    cases b with
    | mk ok batch =>
      cases ok with
      | true =>
        simp only [run_batches, List.foldl_cons] at *
        rw [insert_into_db_commit]
        rw [ih]
        simp [List.filter_cons, List.append_assoc]
      | false =>
        simp only [run_batches, List.foldl_cons] at *
        rw [insert_into_db_rollback]
        rw [ih]
        simp [List.filter_cons]

end RedditPipeline

namespace RedditPipeline

/-- **C7.** A batch flush is all-or-nothing at batch granularity: a failed
flush leaves the committed state exactly as it was (no row of the failed
batch is persisted, previously committed rows are untouched), a successful
flush appends exactly that batch's selected rows, and over any sequence of
batches the final committed state is the initial state plus the selected
rows of exactly the successful batches — later batches still go through
after an earlier failure. -/
theorem c7_batch_flush_all_or_nothing :
    (∀ conn data_batch, insert_into_db false conn data_batch = conn) ∧
    (∀ conn data_batch,
      insert_into_db true conn data_batch = conn ++ values_to_insert data_batch) ∧
    (∀ conn batches, run_batches conn batches =
      conn ++ ((batches.filter (fun b => b.1)).map
        (fun b => values_to_insert b.2)).flatten) :=
  ⟨insert_into_db_rollback, insert_into_db_commit, run_batches_eq⟩

end RedditPipeline

namespace RedditPipeline

/-- If the filter keeps a record, the returned post's `upvote_ratio` is a
verbatim copy of the record's (the dict comprehension copies every desired
attribute that is present). -/
lemma filter_some_upvote_ratio (r : RawRecord) (mc : Nat) (ms : Int)
    (fp : FilteredPost)
    (h : filter_submissions_by_content_length r mc ms = some fp) :
    fp.upvote_ratio = r.upvote_ratio := by
  simp only [filter_submissions_by_content_length] at h
  split at h
  · cases h
  · split at h
    · cases h
    · cases h
      rfl

/-- A fully populated raw record for C9: all nine persisted attributes are
present, including `upvote_ratio`, and it passes the filter. -/
def c9Record : RawRecord :=
  { subreddit := some "science"
    score := some 25
    author := some "bob"
    created_utc := some 1600000000
    title := some "an interesting result about reddit data"
    id := some "xyz789"
    num_comments := some 7
    upvote_ratio := some (1 : Rat)
    selftext := some "some text"
    media := none }

/-- The post the filter produces from `c9Record`. -/
def c9Post : FilteredPost :=
  { subreddit := some "science"
    score := some 25
    author := some "bob"
    created_utc := some 1600000000
    title := some "an interesting result about reddit data"
    id := some "xyz789"
    num_comments := some 7
    upvote_ratio := some (1 : Rat)
    selftext := some "some text" }

end RedditPipeline

namespace RedditPipeline

/-- **C9.** A filtered post coming from a raw record that carries all nine
persisted attributes (in particular `upvote_ratio`) is silently excluded by
`insert_into_db`: its key set is the nine-key set, which differs from the
fixed eight-key `expected_keys`, so the row is never among the values passed
to `executemany` and never reaches the committed state (and no counter in
the ingestion path records this loss). -/
theorem c9_full_row_silently_dropped (r : RawRecord) (mc : Nat) (ms : Int)
    (fp : FilteredPost)
    (hup : r.upvote_ratio.isSome = true)
    (hf : filter_submissions_by_content_length r mc ms = some fp) :
    FilteredPost.keys fp ≠ expected_keys ∧
    (∀ data_batch, fp ∉ values_to_insert data_batch) ∧
    (∀ flush_ok conn data_batch,
      fp ∈ insert_into_db flush_ok conn data_batch → fp ∈ conn) := by
  have hcopy := filter_some_upvote_ratio r mc ms fp hf
  have hups : fp.upvote_ratio.isSome = true := by rw [hcopy]; exact hup
  have hmem : "upvote_ratio" ∈ FilteredPost.keys fp := by
    simp only [FilteredPost.keys, hups, if_true]
    simp [Finset.mem_union]
  have hne : FilteredPost.keys fp ≠ expected_keys := by
    intro heq
    rw [heq] at hmem
    revert hmem
    decide
  have hnot : ∀ data_batch, fp ∉ values_to_insert data_batch := by
    intro data_batch hin
    have := List.of_mem_filter hin
    exact hne (of_decide_eq_true this)
  refine ⟨hne, hnot, ?_⟩
  intro flush_ok conn data_batch hin
  simp only [insert_into_db] at hin
  split at hin
  · exact hin
  · split at hin
    · rcases List.mem_append.mp hin with h | h
      · exact h
      · exact absurd h (hnot data_batch)
    · exact hin

/-- Witness for C9: the concrete fully populated record passes the filter,
and the resulting row is excluded from the insert set of a batch holding
exactly it. -/
theorem c9_full_row_silently_dropped_witness :
    FilteredPost.keys c9Post ≠ expected_keys ∧
    c9Post ∉ values_to_insert [c9Post] := by
  have h := c9_full_row_silently_dropped c9Record 20 10 c9Post (by decide)
    (by decide)
  exact ⟨h.1, h.2.1 [c9Post]⟩

end RedditPipeline

namespace RedditPipeline

/-! ## Ingestion worker: `add_compressed_file_to_db`

The worker reads the archive in fixed-size windows.  Two views of the same
loop are embedded.

String view (for the line-splitting behaviour): each successfully decoded
window is a string, and the code runs `chunk.decode("utf-8").split("\n")`
per window — there is no carry-over of a trailing partial line into the
next window.

Record view (for the counting and error-recovery behaviour): each window
is `none` (a `UnicodeDecodeError`, skipped by `continue`) or a list of
lines, each line being `fail` (a `json.JSONDecodeError`, skipped by
`continue`) or `ok r` with the parsed record `r`.
-/

/-- Python's `str.split("\n")` on the character list of the string: the
segments between newlines, keeping empty segments (so a trailing newline
yields a final empty segment, and an empty string yields one empty
segment). -/
def split_on_newline : List Char → List (List Char)
  | [] => [[]]
  | c :: cs =>
    match split_on_newline cs with
    | [] => [[]]
    | l :: ls => if c = '\n' then [] :: l :: ls else (c :: l) :: ls

/-- `chunk.decode("utf-8").split("\n")` for one decoded window. -/
def chunk_lines (chunk : String) : List String :=
  (split_on_newline chunk.data).map (fun cs => String.mk cs)

/-- The sequence of lines the worker's inner loop actually presents to the
parser: the concatenation of the per-window splits. -/
def presented_lines (chunks : List String) : List String :=
  (chunks.map chunk_lines).flatten

/-- The newline-split of the whole decompressed payload — what the spec
says the parser must see. -/
def payload_lines (chunks : List String) : List String :=
  chunk_lines (String.join chunks)

/-- Outcome of `json.loads` on one line. -/
inductive ParsedLine
  | ok (r : RawRecord)
  | fail
  deriving Repr, DecidableEq

/-- Outcome of reading and decoding one 128 MB window: `none` models a
`UnicodeDecodeError` on `chunk.decode("utf-8")`. -/
abbrev ChunkOutcome := Option (List ParsedLine)

/-- The worker's filtering parameters and flush threshold. -/
structure IngestConfig where
  batch_size : Nat
  min_post_length : Nat
  min_score : Int
  deriving Repr

/-- The worker-local state: the pending buffer, the two counters, and the
batches handed to `insert_into_db` so far. -/
structure FileState where
  rows_buffer : List FilteredPost
  local_row_count : Nat
  discarded_rows_local : Nat
  flushed : List (List FilteredPost)
  deriving Repr, DecidableEq

def initial_file_state : FileState :=
  { rows_buffer := [], local_row_count := 0, discarded_rows_local := 0,
    flushed := [] }

/-- Body of `for line in data`: a parse failure is skipped by `continue`
(no counter is touched); a kept record is appended to the buffer, which is
flushed — and only then counted, by `batch_size` — once it reaches
`batch_size`; a filtered-out record increments the local discard
counter. -/
def processLine (cfg : IngestConfig) (st : FileState) (l : ParsedLine) :
    FileState :=
  match l with
  | .fail => st
  | .ok line_json =>
    match filter_submissions_by_content_length line_json cfg.min_post_length
        cfg.min_score with
    | some fp =>
      let buf := st.rows_buffer ++ [fp]
      if cfg.batch_size ≤ buf.length then
        { st with
          rows_buffer := [],
          flushed := st.flushed ++ [buf],
          local_row_count := st.local_row_count + cfg.batch_size }
      else
        { st with rows_buffer := buf }
    | none =>
      { st with discarded_rows_local := st.discarded_rows_local + 1 }

/-- One iteration of `while True`: an undecodable window is skipped by
`continue`; a decoded window's lines are processed in order. -/
def processChunk (cfg : IngestConfig) (st : FileState) (c : ChunkOutcome) :
    FileState :=
  match c with
  | none => st
  | some lines => lines.foldl (processLine cfg) st

/-- Embedding of `add_compressed_file_to_db` (record view): fold the loop
over all windows, then flush any remaining partial buffer — note the final
flush touches neither `local_row_count` nor the global written counter. -/
def add_compressed_file_to_db (cfg : IngestConfig)
    (chunks : List ChunkOutcome) : FileState :=
  let st := chunks.foldl (processChunk cfg) initial_file_state
  if st.rows_buffer.isEmpty then st
  else { st with flushed := st.flushed ++ [st.rows_buffer] }

def ParsedLine.isOk : ParsedLine → Bool
  | .ok _ => true
  | .fail => false

/-- Number of successfully parsed records in the archive (lines whose
`json.loads` succeeded). -/
def parsed_count (chunks : List ChunkOutcome) : Nat :=
  (chunks.map (fun c => (c.getD []).countP ParsedLine.isOk)).sum

/-- A successfully parsed line the content filter rejects. -/
def rejected_by_filter (cfg : IngestConfig) : ParsedLine → Bool
  | .ok r =>
    (filter_submissions_by_content_length r cfg.min_post_length
      cfg.min_score).isNone
  | .fail => false

/-- Number of parsed-but-filtered-out records in the archive. -/
def rejected_count (cfg : IngestConfig) (chunks : List ChunkOutcome) : Nat :=
  (chunks.map (fun c => (c.getD []).countP (rejected_by_filter cfg))).sum

end RedditPipeline

namespace RedditPipeline

lemma processLine_discarded (cfg : IngestConfig) (st : FileState)
    (l : ParsedLine) :
    (processLine cfg st l).discarded_rows_local =
      st.discarded_rows_local + (if rejected_by_filter cfg l then 1 else 0) := by
  cases l with
  | fail => simp [processLine, rejected_by_filter]
  | ok r =>
    simp only [processLine, rejected_by_filter]
    split
    · next fp hf =>
      simp only [hf, Option.isNone_some, Bool.false_eq_true, if_false]
      split <;> rfl
    · next hf =>
      simp [hf]

lemma foldl_lines_discarded (cfg : IngestConfig) (lines : List ParsedLine)
    (st : FileState) :
    (lines.foldl (processLine cfg) st).discarded_rows_local =
      st.discarded_rows_local + lines.countP (rejected_by_filter cfg) := by
  induction lines generalizing st with
  | nil => simp
  | cons l rest ih =>
    simp only [List.foldl_cons, List.countP_cons, ih, processLine_discarded]
    split <;> omega

lemma processChunk_discarded (cfg : IngestConfig) (st : FileState)
    (c : ChunkOutcome) :
    (processChunk cfg st c).discarded_rows_local =
      st.discarded_rows_local + (c.getD []).countP (rejected_by_filter cfg) := by
  cases c with
  | none => simp [processChunk]
  | some lines => simp [processChunk, foldl_lines_discarded]

lemma foldl_chunks_discarded (cfg : IngestConfig) (chunks : List ChunkOutcome)
    (st : FileState) :
    (chunks.foldl (processChunk cfg) st).discarded_rows_local =
      st.discarded_rows_local +
        (chunks.map (fun c => (c.getD []).countP (rejected_by_filter cfg))).sum := by
  induction chunks generalizing st with
  | nil => simp
  | cons c rest ih =>
    simp only [List.foldl_cons, List.map_cons, List.sum_cons, ih,
      processChunk_discarded]
    omega

end RedditPipeline

namespace RedditPipeline

/-- Record used for the C2 failing input: it passes the filter with the
thresholds below. -/
def c2Record : RawRecord :=
  { subreddit := none, score := none, author := none, created_utc := none,
    title := some "x", id := none, num_comments := none,
    upvote_ratio := none, selftext := none, media := none }

/-- Worker configuration for the C2 failing input: flush threshold 2, no
length or score requirement. -/
def c2Config : IngestConfig :=
  { batch_size := 2, min_post_length := 0, min_score := 0 }

/-- **C2.** Evaluation of the worker at the failing input: a single
archive whose one window parses to a single record that passes the filter,
with `batch_size = 2`.  The record is flushed at end-of-stream (one row
reaches the sink) and one record was successfully parsed, yet the
rows-written contribution and the discard contribution are both zero, so
`rows_written + rows_discarded = 0 ≠ 1 = parsed`: the final partial batch
is flushed without being reflected in the rows-written counter. -/
theorem c2_final_partial_batch_uncounted :
    (add_compressed_file_to_db c2Config
        [some [ParsedLine.ok c2Record]]).local_row_count = 0 ∧
    (add_compressed_file_to_db c2Config
        [some [ParsedLine.ok c2Record]]).discarded_rows_local = 0 ∧
    ((add_compressed_file_to_db c2Config
        [some [ParsedLine.ok c2Record]]).flushed.flatten).length = 1 ∧
    parsed_count [some [ParsedLine.ok c2Record]] = 1 := by
  decide

/-- **C3.** Evaluation of the window loop at the failing input: two decoded
windows `"abc"` and `"def\n"` (the window boundary falls inside a line).
The loop presents the lines `["abc", "def", ""]` to the parser, but the
newline-split of the whole decompressed payload is `["abcdef", ""]`: no
carry-over of the trailing partial line happens, so the record `"abcdef"`
is corrupted at the window boundary. -/
theorem c3_no_partial_line_carry_over :
    presented_lines ["abc", "def\n"] = ["abc", "def", ""] ∧
    payload_lines ["abc", "def\n"] = ["abcdef", ""] ∧
    presented_lines ["abc", "def\n"] ≠ payload_lines ["abc", "def\n"] := by
  refine ⟨by decide, by decide, by decide⟩

end RedditPipeline

namespace RedditPipeline

/-- The worker configuration matching config.py
(`MIN_POST_LENGTH = 40`, `MIN_SCORE = 10`, batches of 20000). -/
def productionConfig : IngestConfig :=
  { batch_size := 20000, min_post_length := 40, min_score := 10 }

/-- **C6 (counterexample).** One window holding one line that fails JSON
parsing: the worker's discard counter stays at `0` — the parse error does
not increment it, contrary to the claim. -/
theorem c6_parse_error_not_counted :
    (add_compressed_file_to_db productionConfig
        [some [ParsedLine.fail]]).discarded_rows_local = 0 ∧
    (add_compressed_file_to_db productionConfig
        [some [ParsedLine.fail]]).discarded_rows_local ≠ 1 := by
  decide

/-- **C6 (amended).** Every parse error during ingestion is recovered
locally: a line failing JSON parsing is a no-op for the worker state, an
undecodable window is a no-op as well, so processing continues with the
rest of the archive and never aborts the file; the discard counter is not
incremented for parse errors — after any archive it equals exactly the
number of successfully parsed records rejected by the content filter. -/
theorem c6_parse_errors_recovered_locally :
    (∀ cfg st, processLine cfg st ParsedLine.fail = st) ∧
    (∀ cfg st, processChunk cfg st none = st) ∧
    (∀ cfg chunks,
      (add_compressed_file_to_db cfg chunks).discarded_rows_local =
        rejected_count cfg chunks) := by
  refine ⟨fun cfg st => rfl, fun cfg st => rfl, fun cfg chunks => ?_⟩
  simp only [add_compressed_file_to_db, rejected_count]
  split
  · simp [foldl_chunks_discarded, initial_file_state]
  · simp [foldl_chunks_discarded, initial_file_state]

end RedditPipeline

namespace RedditPipeline

/-! ## Ingestion coordinator: `main_load_files_in_db`

`main_load_files_in_db` is sequential straight-line code up to the point
where worker threads are started: it calls `setup_database_create_table`
(which drops and recreates the destination table and only then returns)
exactly once, and only afterwards enters the loop that starts one worker
thread per `.zst` file.  The coordinator is embedded as the trace of these
externally visible events in program order.
-/

inductive IngestEvent
  | recreate_table
  | worker_start (index : Nat)
  deriving Repr, DecidableEq

def IngestEvent.isRecreate : IngestEvent → Bool
  | .recreate_table => true
  | .worker_start _ => false

def IngestEvent.isWorkerStart : IngestEvent → Bool
  | .recreate_table => false
  | .worker_start _ => true

/-- Trace of `main_load_files_in_db` on a directory listing: first the
destructive table recreation (completed, since the call is synchronous),
then one `worker_start` per `.zst` file, indexed by the running `count`. -/
def main_load_files_in_db (files : List String) : List IngestEvent :=
  IngestEvent.recreate_table ::
    ((files.filter (fun f => f.endsWith ".zst")).enum.map
      (fun p => IngestEvent.worker_start p.1))

lemma countP_recreate_worker_starts (l : List (Nat × String)) :
    (l.map (fun p => IngestEvent.worker_start p.1)).countP
      IngestEvent.isRecreate = 0 := by
  induction l with
  | nil => rfl
  | cons a t ih => simp [List.countP_cons, ih, IngestEvent.isRecreate]

lemma all_worker_starts (l : List (Nat × String)) :
    (l.map (fun p => IngestEvent.worker_start p.1)).all
      IngestEvent.isWorkerStart = true := by
  induction l with
  | nil => rfl
  | cons a t ih => simp [ih, IngestEvent.isWorkerStart]

/-- **C8.** On any directory listing, the coordinator's trace contains the
table recreation exactly once, it is the very first event, and every other
event is a worker start — so the destructive recreation completes before
any ingestion worker is started and never runs concurrently with one. -/
theorem c8_recreate_once_before_workers (files : List String) :
    (main_load_files_in_db files).countP IngestEvent.isRecreate = 1 ∧
    (main_load_files_in_db files).head? = some IngestEvent.recreate_table ∧
    (main_load_files_in_db files).tail.all IngestEvent.isWorkerStart = true := by
  refine ⟨?_, rfl, ?_⟩
  · simp [main_load_files_in_db, List.countP_cons,
      countP_recreate_worker_starts, IngestEvent.isRecreate]
  · simp [main_load_files_in_db, all_worker_starts]

end RedditPipeline

namespace RedditPipeline

/-! ## Summary computations and division by zero

The coordinator's final log line computes
`discarded_rows / (row_count + discarded_rows) * 100`, and each worker's
per-file log line computes
`discarded_rows / (local_row_count + discarded_rows) * 100` — note both
use the **global** `discarded_rows` counter, while only the worker's own
written count is local.  A zero denominator raises `ZeroDivisionError` in
Python; the computation is embedded as an `Option`, with `none` for the
raised exception.
-/

/-- The coordinator's final percentage-discarded computation. -/
def final_percentage_discarded (row_count discarded_rows : Nat) : Option Rat :=
  if row_count + discarded_rows = 0 then none
  else some ((discarded_rows : Rat) / ((row_count : Rat) + (discarded_rows : Rat)) * 100)

/-- A worker's per-file percentage-discarded computation; its second
argument is the global discard counter (which, at logging time, already
includes this file's local discards). -/
def per_file_percentage_discarded (local_row_count discarded_rows : Nat) :
    Option Rat :=
  if local_row_count + discarded_rows = 0 then none
  else some ((discarded_rows : Rat) /
    ((local_row_count : Rat) + (discarded_rows : Rat)) * 100)

/-- **C10 (counterexample).** A worker whose file contributed zero written
and zero discarded rows does *not* necessarily hit a division by zero: the
denominator uses the global discard counter, so with five discards from
other workers the per-file summary evaluates to `100` instead of
raising. -/
theorem c10_per_file_summary_uses_global_counter :
    per_file_percentage_discarded 0 5 = some 100 ∧
    per_file_percentage_discarded 0 5 ≠ none := by
  constructor
  · simp only [per_file_percentage_discarded]
    norm_num
  · simp only [per_file_percentage_discarded]
    norm_num
    intro h
    cases h

/-- **C10 (amended).** The coordinator's final summary divides by zero
(raising instead of emitting the summary) exactly when the run ends with
both counters at zero; a worker's per-file summary divides by zero exactly
when its local written count and the global discard counter are both zero
— in particular in a run over a single archive contributing zero written
and zero discarded rows, but not necessarily whenever that single file's
own contributions are zero. -/
theorem c10_summary_division_by_zero :
    (∀ rc d, final_percentage_discarded rc d = none ↔ rc + d = 0) ∧
    (∀ lc d, per_file_percentage_discarded lc d = none ↔ lc + d = 0) ∧
    final_percentage_discarded 0 0 = none ∧
    per_file_percentage_discarded 0 0 = none := by
  refine ⟨fun rc d => ?_, fun lc d => ?_, rfl, rfl⟩
  · simp only [final_percentage_discarded]
    split
    · next h => simp [h]
    · next h => simp [h]
  · simp only [per_file_percentage_discarded]
    split
    · next h => simp [h]
    · next h => simp [h]

end RedditPipeline

namespace RedditPipeline

/-! ## Incremental vector store and embedding pipeline (src/embed_dataset.py)

The H5 file is modeled by its two datasets: the embedding matrix as a list
of rows and the id dataset as a list of ids, together with the fixed column
width chosen at creation.  `append_ids_embeddings_to_h5` resizes both
datasets and writes the new slices; the slice assignments require the new
rows to have the dataset's column width and the id batch to have as many
entries as the embedding batch has rows — a mismatch makes h5py raise,
modeled as `none`.
-/

structure H5Store where
  embedding_dim : Nat
  embeds : List (List Int)
  ids : List String
  deriving Repr, DecidableEq

/-- Embedding of `initialize_h5_file`: both datasets start empty, the
embedding dataset with column width `embedding_dim` fixed by its
`maxshape`. -/
def initialize_h5_file (embedding_dim : Nat) : H5Store :=
  { embedding_dim := embedding_dim, embeds := [], ids := [] }

/-- Embedding of `append_ids_embeddings_to_h5`: grow both datasets by the
batch (the resize keeps the column width `embed_dset.shape[1]`); `none`
models h5py raising on a shape mismatch in the slice assignments. -/
def append_ids_embeddings_to_h5 (f : H5Store) (embeddings : List (List Int))
    (ids : List String) : Option H5Store :=
  if embeddings.all (fun row => row.length == f.embedding_dim) &&
      ids.length == embeddings.length then
    some { embedding_dim := f.embedding_dim,
           embeds := f.embeds ++ embeddings,
           ids := f.ids ++ ids }
  else none

/-- A sequence of append calls, stopping at the first failure. -/
def run_appends (f : H5Store) :
    List (List (List Int) × List String) → Option H5Store
  | [] => some f
  | b :: bs =>
    match append_ids_embeddings_to_h5 f b.1 b.2 with
    | some g => run_appends g bs
    | none => none

/-- The store's shape invariant: as many ids as embedding rows, and every
row has the fixed column width. -/
def H5Store.shape_ok (f : H5Store) : Bool :=
  (f.ids.length == f.embeds.length) &&
    f.embeds.all (fun row => row.length == f.embedding_dim)

lemma append_dim_and_shape (f g : H5Store) (e : List (List Int))
    (i : List String)
    (h : append_ids_embeddings_to_h5 f e i = some g) :
    g.embedding_dim = f.embedding_dim ∧
    (f.shape_ok = true → g.shape_ok = true) := by
  simp only [append_ids_embeddings_to_h5] at h
  split at h
  · next hc =>
    cases h
    simp only [Bool.and_eq_true, beq_iff_eq] at hc
    refine ⟨rfl, fun hf => ?_⟩
    simp only [H5Store.shape_ok, Bool.and_eq_true, beq_iff_eq,
      List.length_append, List.all_append] at *
    exact ⟨by omega, hf.2, hc.1⟩
  · cases h

lemma run_appends_dim_and_shape (batches : List (List (List Int) × List String))
    (f g : H5Store) (h : run_appends f batches = some g) :
    g.embedding_dim = f.embedding_dim ∧
    (f.shape_ok = true → g.shape_ok = true) := by
  induction batches generalizing f with
  | nil =>
    simp only [run_appends] at h
    cases h
    exact ⟨rfl, fun hf => hf⟩
  | cons b bs ih =>
    simp only [run_appends] at h
    split at h
    · next f2 hstep =>
      have h1 := append_dim_and_shape f f2 b.1 b.2 hstep
      have h2 := ih f2 h
      exact ⟨h2.1.trans h1.1, fun hf => h2.2 (h1.2 hf)⟩
    · cases h

/-- The two successive appends of the C5 scenario: 50 rows then 30 rows of
width `D`. -/
def c5_scenario (D : Nat) : List (List (List Int) × List String) :=
  [(List.replicate 50 (List.replicate D 0), List.replicate 50 "x"),
   (List.replicate 30 (List.replicate D 0), List.replicate 30 "y")]

lemma append_replicate (dim : Nat) (em : List (List Int)) (ids : List String)
    (n : Nat) (s : String) :
    append_ids_embeddings_to_h5 (H5Store.mk dim em ids)
        (List.replicate n (List.replicate dim 0)) (List.replicate n s) =
      some (H5Store.mk dim (em ++ List.replicate n (List.replicate dim 0))
        (ids ++ List.replicate n s)) := by
  simp [append_ids_embeddings_to_h5, List.all_eq_true, List.mem_replicate]

lemma run_c5_scenario (D : Nat) :
    run_appends (initialize_h5_file D) (c5_scenario D) =
      some { embedding_dim := D,
             embeds := List.replicate 50 (List.replicate D 0) ++
               List.replicate 30 (List.replicate D 0),
             ids := List.replicate 50 "x" ++ List.replicate 30 "y" } := by
  simp only [run_appends, c5_scenario, initialize_h5_file, append_replicate,
    List.nil_append]

end RedditPipeline

namespace RedditPipeline

/-- **C5.** After any sequence of successful `append` calls starting from a
freshly initialized store, the store has as many ids as embedding rows and
every row has the column width fixed at creation; in particular the 50-then-
30 scenario from an empty store of dimension `D` yields 80 ids and an 80-row
matrix of width `D` (and the scenario's appends do succeed). -/
theorem c5_store_shape_invariant :
    (∀ (D : Nat) (batches : List (List (List Int) × List String)) (g : H5Store),
      run_appends (initialize_h5_file D) batches = some g →
      H5Store.shape_ok g = true ∧ g.embedding_dim = D) ∧
    (∀ (D : Nat) (g : H5Store),
      run_appends (initialize_h5_file D) (c5_scenario D) = some g →
      g.ids.length = 80 ∧ g.embeds.length = 80 ∧
      g.embeds.all (fun row => row.length == D) = true) ∧
    (∀ D : Nat,
      (run_appends (initialize_h5_file D) (c5_scenario D)).isSome = true) := by
  refine ⟨fun D batches g h => ?_, fun D g h => ?_, fun D => ?_⟩
  · have hds := run_appends_dim_and_shape batches (initialize_h5_file D) g h
    exact ⟨hds.2 rfl, hds.1⟩
  · rw [run_c5_scenario D] at h
    cases h
    refine ⟨by simp, by simp, ?_⟩
    simp only [List.all_eq_true, List.mem_append, List.mem_replicate]
    intro row hrow
    rcases hrow with h1 | h1 <;> simp [h1.2]
  · rw [run_c5_scenario D]
    rfl

/-- Witness for C5: the 50-then-30 scenario at dimension 2, evaluated; the
resulting store satisfies the shape invariant and has 80 ids and 80
rows. -/
theorem c5_store_shape_invariant_witness :
    H5Store.shape_ok
        (H5Store.mk 2
          (List.replicate 50 (List.replicate 2 0) ++
            List.replicate 30 (List.replicate 2 0))
          (List.replicate 50 "x" ++ List.replicate 30 "y")) = true ∧
    (H5Store.mk 2
        (List.replicate 50 (List.replicate 2 0) ++
          List.replicate 30 (List.replicate 2 0))
        (List.replicate 50 "x" ++ List.replicate 30 "y")).ids.length = 80 ∧
    (H5Store.mk 2
        (List.replicate 50 (List.replicate 2 0) ++
          List.replicate 30 (List.replicate 2 0))
        (List.replicate 50 "x" ++ List.replicate 30 "y")).embeds.length = 80 := by
  have h := run_c5_scenario 2
  exact ⟨(c5_store_shape_invariant.1 2 (c5_scenario 2) _ h).1,
    (c5_store_shape_invariant.2.1 2 _ h).1,
    (c5_store_shape_invariant.2.1 2 _ h).2.1⟩

end RedditPipeline

namespace RedditPipeline

/-! ## Embedding pipeline coordinator: `create_and_save_embeddings`

A database page is a list of `(id, title, selftext, created_utc)` rows;
`langid.classify` is abstracted as a boolean predicate on the concatenated
text.  `generate_embeddings` is modeled by its shape contract only: one
row of the model's fixed dimension per input text.  The coordinator state
records the vector store (`none` before the H5 file is first created), the
running `total_processed` count, and the list of text batches the
embedding generator has been invoked with. -/

/-- Embedding of `prepare_texts_and_ids`: concatenate `title + " " +
selftext`, keep only rows the language filter classifies as English,
returning the texts and their ids in order. -/
def prepare_texts_and_ids (isEnglish : String → Bool)
    (data : List (String × String × String × Int)) :
    List String × List String :=
  data.foldl
    (fun acc row =>
      let full_text := row.2.1 ++ " " ++ row.2.2.1
      if isEnglish full_text then (acc.1 ++ [full_text], acc.2 ++ [row.1])
      else acc)
    ([], [])

/-- Shape model of `generate_embeddings`: one vector of the model's
dimension `D` per input text. -/
def generate_embeddings (D : Nat) (texts : List String) : List (List Int) :=
  texts.map (fun _ => List.replicate D 0)

structure EmbedState where
  h5_file : Option H5Store
  total_processed : Nat
  generator_calls : List (List String)
  deriving Repr, DecidableEq

/-- One iteration of the coordinator loop.  The Python guard is
`if texts is not None:` — but `prepare_texts_and_ids` always returns a
list, never `None`, so the branch is taken even when the prepared list is
empty: the generator is invoked, the H5 file is created on the first page
regardless, and the (possibly empty) batch is appended.  A failing append
propagates as `none` (the exception aborts the run). -/
def embed_step (D : Nat) (isEnglish : String → Bool) (st : EmbedState)
    (batch : List (String × String × String × Int)) : Option EmbedState :=
  let p := prepare_texts_and_ids isEnglish batch
  let texts := p.1
  let batch_ids := p.2
  let embeddings := generate_embeddings D texts
  let f :=
    match st.h5_file with
    | none => initialize_h5_file D
    | some f => f
  match append_ids_embeddings_to_h5 f embeddings batch_ids with
  | some f2 =>
    some { h5_file := some f2,
           total_processed := st.total_processed + batch_ids.length,
           generator_calls := st.generator_calls ++ [texts] }
  | none => none

/-- The coordinator loop over all fetched pages. -/
def run_pages (D : Nat) (isEnglish : String → Bool) (st : EmbedState) :
    List (List (String × String × String × Int)) → Option EmbedState
  | [] => some st
  | page :: pages =>
    match embed_step D isEnglish st page with
    | some st2 => run_pages D isEnglish st2 pages
    | none => none

/-- Embedding of `create_and_save_embeddings`: start with no H5 file and
fold the loop over the pages. -/
def create_and_save_embeddings (D : Nat) (isEnglish : String → Bool)
    (pages : List (List (String × String × String × Int))) :
    Option EmbedState :=
  run_pages D isEnglish
    { h5_file := none, total_processed := 0, generator_calls := [] } pages

/-- **C4.** Evaluation of the coordinator at the failing input: one page
with one row, with a language filter that removes every row (so the
prepared text list is empty).  Because the guard `if texts is not None:`
is always true for a list, the loop does not skip the page: the embedding
generator is invoked once with the empty text list (`generator_calls =
[[]]`), and the vector store file is created (`h5_file` is `some`, holding
the freshly initialized empty store) even though no row was processed. -/
theorem c4_empty_page_still_touches_store :
    create_and_save_embeddings 4 (fun _ => false)
        [[("p1", "some title", "some body", 0)]] =
      some { h5_file := some (initialize_h5_file 4),
             total_processed := 0,
             generator_calls := [[]] } := by
  decide

end RedditPipeline
